import Mathlib

/-!
Verification of the claim set for `generate_apple_jwt.py`, a straight-line
script that prints JWT setup instructions together with a rendered JSON
header and payload.

The script is embedded shallowly.  Its only interaction with the outside
world is reading the clock twice and writing lines to standard output, so a
run is modelled as a pure function of an environment `Env` holding the
results of the clock reads, the value of the module variable for the script
location, and the argument vector it was invoked with.

Clock semantics captured by `Env`:

* line 44 of the source executes `now = int(time.time())`: a first clock
  read returning a real-valued epoch time, truncated toward zero by the
  Python `int` conversion;
* line 45 executes `exp = int((datetime.now() + timedelta(days=180)).timestamp())`:
  a second, independent clock read.  `datetime.now()` yields the naive
  local wall-clock time of an epoch instant `nowTs`; adding
  `timedelta(days=180)` adds exactly 15552000 wall-clock seconds; and
  `.timestamp()` converts the shifted naive local time back to an epoch
  value, which differs from `nowTs + 15552000` by the difference in UTC
  offset between the two local instants (zero unless a DST transition or a
  zone change falls inside the 180-day window).  That offset difference is
  the field `tzShift`.
-/

/-- The Python `int()` conversion on a finite real number: truncation
toward zero.  Real-valued clock readings are idealised as rationals. -/
def pyTrunc (q : ℚ) : ℤ := if 0 ≤ q then ⌊q⌋ else ⌈q⌉

/-- The environment a run of the script observes: the two clock readings,
the UTC-offset artifact of the naive 180-day datetime addition, and the
location of the script file (the module variable printed at line 68). -/
structure Env where
  timeTime : ℚ
  nowTs : ℚ
  tzShift : ℤ
  scriptPath : String
deriving DecidableEq

/-- Source line 14: the hardcoded team identifier. -/
def TEAM_ID : String := "5TBWU99J4Y"

/-- Source line 15: the hardcoded key identifier. -/
def KEY_ID : String := "YACV7X3SX4"

/-- Source line 16: the hardcoded service identifier. -/
def SERVICE_ID : String := "com.neal.envivenew.signin"

/-- Source line 17: the hardcoded private-key file path.  The script only
prints this string; it never opens the file. -/
def KEY_FILE : String := "/Users/nealahlstrom/Downloads/AuthKey_YACV7X3SX4.p8"

/-- Source line 44: `now = int(time.time())`. -/
def mainIat (e : Env) : ℤ := pyTrunc e.timeTime

/-- The value of `(datetime.now() + timedelta(days=180)).timestamp()` in
source line 45, per the clock semantics described in the header comment. -/
def dtPlus180Ts (e : Env) : ℚ := e.nowTs + 15552000 + (e.tzShift : ℚ)

/-- Source line 45: `exp = int((datetime.now() + timedelta(days=180)).timestamp())`. -/
def mainExp (e : Env) : ℤ := pyTrunc (dtPlus180Ts e)

/-- A JSON value occurring in the two rendered objects: a string or an
integer.  These are the only value shapes the script serialises. -/
inductive Jval where
  | jstr (s : String)
  | jint (n : ℤ)
deriving DecidableEq

/-- Rendering of a single JSON value, as `json.dumps` renders strings and
integers (no escaping is needed: every serialised string is plain ASCII
without quotes or backslashes). -/
def Jval.render : Jval → String
  | .jstr s => "\"" ++ s ++ "\""
  | .jint n => toString n

/-- The object members as `json.dumps(obj, indent=2)` lays them out: each
member on its own line indented by two spaces, `": "` between key and
value, members separated by `",\n"`. -/
def renderMembers : List (String × Jval) → String
  | [] => ""
  | [p] => "  \"" ++ p.1 ++ "\": " ++ p.2.render
  | p :: ps => "  \"" ++ p.1 ++ "\": " ++ p.2.render ++ ",\n" ++ renderMembers ps

/-- The output of `json.dumps(obj, indent=2)` on a flat object with the
given key order: the member lines of `renderMembers` between the opening
and closing braces. -/
def jsonDumpsIndent2 (pairs : List (String × Jval)) : String :=
  "\x7b\n" ++ renderMembers pairs ++ "\n\x7d"

/-- Source lines 37-40: the header object `{"alg": "ES256", "kid": KEY_ID}`,
with the insertion order of the Python dict. -/
def headerPairs : List (String × Jval) :=
  [("alg", .jstr "ES256"), ("kid", .jstr KEY_ID)]

/-- The header JSON text printed at line 37. -/
def renderHeader : String := jsonDumpsIndent2 headerPairs

/-- Source lines 46-52: the payload object, with the insertion order of the
Python dict. -/
def payloadPairs (e : Env) : List (String × Jval) :=
  [("iss", .jstr TEAM_ID), ("iat", .jint (mainIat e)), ("exp", .jint (mainExp e)),
    ("aud", .jstr "https://appleid.apple.com"), ("sub", .jstr SERVICE_ID)]

/-- The payload JSON text printed at line 46. -/
def renderPayload (e : Env) : String := jsonDumpsIndent2 (payloadPairs e)

/-- A line of sixty equal signs (`"=" * 60`, lines 20, 22, 62). -/
def eqBanner : String := String.mk (List.replicate 60 '=')

/-- A line of sixty dashes (`"-" * 60`, lines 32, 65). -/
def dashBanner : String := String.mk (List.replicate 60 '-')

/-- The text printed by each `print` call of `main`, in order, one entry
per line of output (a bare `print()` contributes the empty line).  The
multi-line JSON dumps appear as single entries holding embedded newlines,
exactly as each is produced by one `print` call. -/
def mainLines (e : Env) : List String :=
  [eqBanner,
   "Apple Sign In JWT Generator",
   eqBanner,
   "",
   "To generate your JWT token, you have two options:",
   "",
   "OPTION 1: Use jwt.io (Manual - 2 minutes)",
   dashBanner,
   "1. Go to: https://jwt.io",
   "2. Select algorithm: ES256",
   "3. Edit HEADER (left side, top box) - paste this:",
   "",
   renderHeader,
   "",
   "4. Edit PAYLOAD (left side, middle box) - paste this:",
   "",
   renderPayload e,
   "",
   "5. On the RIGHT side, look for \x27Private Key\x27 box",
   "   (You may need to scroll down)",
   "6. Paste your private key from:",
   "   " ++ KEY_FILE,
   "",
   "7. Copy the long token from the top (starts with \x27eyJ...\x27)",
   "8. Paste it into Supabase \x27Secret Key (for OAuth)\x27 field",
   "",
   eqBanner,
   "",
   "OPTION 2: Install Python libraries and run this script",
   dashBanner,
   "Run these commands:",
   "  python3 -m pip install --user PyJWT cryptography",
   "  python3 " ++ e.scriptPath,
   ""]

/-- The complete standard-output text of a run: every printed line followed
by the newline `print` appends. -/
def mainOutput (e : Env) : String :=
  String.join ((mainLines e).map fun s => s ++ "\n")

/-- The observable side effects a run of the script could in principle
perform.  `main` uses only `print`; the other constructors exist so that
the frame property "no file, network or environment effects" is a real
statement about the trace rather than a typing accident. -/
inductive Effect where
  | writeStdout (s : String)
  | openFile (path : String)
  | networkConnect (url : String)
  | setEnvVar (key value : String)
deriving DecidableEq

/-- Whether an effect is a write to standard output. -/
def Effect.isWriteStdout : Effect → Bool
  | .writeStdout _ => true
  | _ => false

/-- The side-effect trace of a run: one `writeStdout` per printed line, in
program order, and nothing else — `main` contains no file, network or
environment operation. -/
def mainTrace (e : Env) : List Effect :=
  (mainLines e).map fun s => .writeStdout (s ++ "\n")

/-- A whole process run, including the argument vector.  The guard at
lines 71-72 calls `main()`, which never reads `sys.argv` (the `sys` module
is not even imported), every operation it performs is total (string
formatting, `json.dumps` on string/integer values, `int` on a finite
float, `print`), and it falls off the end of the function, so the process
terminates normally: exit code 0 paired with the produced output, with
`Except` recording that no exception path exists. -/
def runProgram (argv : List String) (e : Env) : Except String (ℕ × String) :=
  Except.ok (0, mainOutput e)

/-- The fixed output lines printed before the payload JSON (source lines
20-43). -/
def linesBeforePayload : List String :=
  [eqBanner,
   "Apple Sign In JWT Generator",
   eqBanner,
   "",
   "To generate your JWT token, you have two options:",
   "",
   "OPTION 1: Use jwt.io (Manual - 2 minutes)",
   dashBanner,
   "1. Go to: https://jwt.io",
   "2. Select algorithm: ES256",
   "3. Edit HEADER (left side, top box) - paste this:",
   "",
   renderHeader,
   "",
   "4. Edit PAYLOAD (left side, middle box) - paste this:",
   ""]

/-- The fixed output lines printed between the payload JSON and the line
that prints the script location (source lines 53-66). -/
def linesAfterPayload : List String :=
  ["",
   "5. On the RIGHT side, look for \x27Private Key\x27 box",
   "   (You may need to scroll down)",
   "6. Paste your private key from:",
   "   " ++ KEY_FILE,
   "",
   "7. Copy the long token from the top (starts with \x27eyJ...\x27)",
   "8. Paste it into Supabase \x27Secret Key (for OAuth)\x27 field",
   "",
   eqBanner,
   "",
   "OPTION 2: Install Python libraries and run this script",
   dashBanner,
   "Run these commands:",
   "  python3 -m pip install --user PyJWT cryptography"]

/-- The fixed output text before the payload JSON. -/
def outBeforePayload : String := String.join (linesBeforePayload.map fun s => s ++ "\n")

/-- The fixed output text between the payload JSON and the script path. -/
def outAfterPayload : String := String.join (linesAfterPayload.map fun s => s ++ "\n")

set_option maxRecDepth 40000 in
theorem mainOutput_decomp (e : Env) :
    mainOutput e =
      outBeforePayload ++ (renderPayload e ++ "\n") ++ outAfterPayload ++
        ("  python3 " ++ e.scriptPath ++ "\n") ++ "\n" := by
  apply String.ext
  simp [mainOutput, mainLines, outBeforePayload, linesBeforePayload, outAfterPayload,
    linesAfterPayload, String.join]

theorem renderPayload_congr (e e' : Env) (ht : e.timeTime = e'.timeTime)
    (hn : e.nowTs = e'.nowTs) (hz : e.tzShift = e'.tzShift) :
    renderPayload e = renderPayload e' := by
  unfold renderPayload payloadPairs mainIat mainExp dtPlus180Ts
  rw [ht, hn, hz]

theorem mainOutput_path_ne (e e' : Env) (ht : e.timeTime = e'.timeTime)
    (hn : e.nowTs = e'.nowTs) (hz : e.tzShift = e'.tzShift)
    (hp : e.scriptPath ≠ e'.scriptPath) : mainOutput e ≠ mainOutput e' := by
  intro h
  rw [mainOutput_decomp e, mainOutput_decomp e',
    renderPayload_congr e e' ht hn hz] at h
  have h2 := congrArg String.data h
  simp only [String.data_append, List.append_assoc] at h2
  exact hp (String.ext
    (List.append_cancel_right
      (List.append_cancel_left (List.append_cancel_left (List.append_cancel_left
        (List.append_cancel_left (List.append_cancel_left h2)))))))

/-- C3: the rendered header JSON maps "alg" to the string "ES256" and
"kid" to the fixed key identifier "YACV7X3SX4", and the rendered text is
exactly the two-space-indented dump of that object. -/
theorem header_fixed_fields :
    headerPairs.lookup "alg" = some (.jstr "ES256") ∧
      headerPairs.lookup "kid" = some (.jstr "YACV7X3SX4") ∧
      renderHeader = "\x7b\n  \"alg\": \"ES256\",\n  \"kid\": \"YACV7X3SX4\"\n\x7d" :=
  ⟨rfl, rfl, rfl⟩

/-- C4: on every invocation the rendered payload object maps "iss" to the
fixed issuer "5TBWU99J4Y", "aud" to "https://appleid.apple.com" and "sub"
to "com.neal.envivenew.signin". -/
theorem payload_fixed_fields (e : Env) :
    (payloadPairs e).lookup "iss" = some (.jstr "5TBWU99J4Y") ∧
      (payloadPairs e).lookup "aud" = some (.jstr "https://appleid.apple.com") ∧
      (payloadPairs e).lookup "sub" = some (.jstr "com.neal.envivenew.signin") :=
  ⟨rfl, rfl, rfl⟩

/-- C6: the argument vector has no effect: for any two argument vectors
and the same observed environment, the run is identical. -/
theorem argv_irrelevant (argv argv' : List String) (e : Env) :
    runProgram argv e = runProgram argv' e := rfl

/-- C7: every run terminates normally with exit code 0 and the produced
output; no exception path exists. -/
theorem always_exits_zero (argv : List String) (e : Env) :
    runProgram argv e = Except.ok (0, mainOutput e) := rfl

/-- Whether an effect opens a file. -/
def Effect.opensFile : Effect → Bool
  | .openFile _ => true
  | _ => false

/-- C8: the side-effect trace of every run consists of writes to standard
output only; in particular no effect opens any file (the private-key path
is printed, never opened). -/
theorem effects_stdout_only (e : Env) :
    ((mainTrace e).all Effect.isWriteStdout = true) ∧
      ((mainTrace e).all (fun ef => ! ef.opensFile) = true) := by
  constructor <;>
    simp [mainTrace, List.all_map, Function.comp_def, Effect.isWriteStdout, Effect.opensFile]

/-- C9: the two timestamps come from two independent clock reads, each
truncated toward zero: iat is the truncated first reading, exp is the
truncated timestamp of the naive 180-day shift of the second reading, exp
depends only on the second reading, and exp is not a function of the
captured iat (two environments sharing the second reading but differing in
iat yield the same exp). -/
theorem timestamps_independent_reads :
    (∀ e : Env, mainIat e = pyTrunc e.timeTime) ∧
      (∀ e : Env, mainExp e = pyTrunc (e.nowTs + 15552000 + (e.tzShift : ℚ))) ∧
      (∀ e e' : Env, e.nowTs = e'.nowTs → e.tzShift = e'.tzShift →
        mainExp e = mainExp e') ∧
      (mainIat ⟨0, 5, 0, ""⟩ ≠ mainIat ⟨1, 5, 0, ""⟩ ∧
        mainExp ⟨0, 5, 0, ""⟩ = mainExp ⟨1, 5, 0, ""⟩) := by
  refine ⟨fun _ => rfl, fun _ => rfl, ?_, ?_, rfl⟩
  · intro e e' hn hz
    unfold mainExp dtPlus180Ts
    rw [hn, hz]
  · norm_num [mainIat, pyTrunc]

/-- Witness for C9 at a concrete pair of environments sharing the second
clock reading: the hypotheses of the dependency conjunct hold and the two
exp values agree. -/
theorem timestamps_independent_reads_witness :
    mainExp ⟨2, 7, 1, "/w"⟩ = mainExp ⟨3, 7, 1, "/w"⟩ :=
  timestamps_independent_reads.2.2.1 ⟨2, 7, 1, "/w"⟩ ⟨3, 7, 1, "/w"⟩ rfl rfl

/-- C1 counterexample: the claimed exact 180-day difference fails on the
code, because exp comes from a second, independent clock read.  In an
environment where the second read happens one second after the first, the
rendered difference is 15552001. -/
theorem exp_minus_iat_not_fixed :
    mainExp ⟨1000000000, 1000000001, 0, "/s"⟩ -
      mainIat ⟨1000000000, 1000000001, 0, "/s"⟩ ≠ 15552000 := by
  norm_num [mainExp, mainIat, pyTrunc, dtPlus180Ts]

/-- C1 amended: when the two clock reads observe the very same nonnegative
epoch instant and the naive 180-day datetime addition crosses no UTC-offset
change, the payload difference exp - iat is exactly 15552000 seconds. -/
theorem exp_minus_iat_same_instant (e : Env) (h0 : 0 ≤ e.timeTime)
    (h1 : e.nowTs = e.timeTime) (h2 : e.tzShift = 0) :
    mainExp e - mainIat e = 15552000 := by
  have hd : dtPlus180Ts e = e.timeTime + ((15552000 : ℤ) : ℚ) := by
    unfold dtPlus180Ts
    rw [h1, h2]
    push_cast
    ring
  have h0' : (0 : ℚ) ≤ dtPlus180Ts e := by
    rw [hd]
    push_cast
    linarith
  unfold mainExp mainIat pyTrunc
  rw [if_pos h0', if_pos h0, hd, Int.floor_add_int]
  ring

/-- Witness for the amended C1 at a concrete environment where both reads
see epoch second 1700000000 with no offset change. -/
theorem exp_minus_iat_same_instant_witness :
    (0 : ℚ) ≤ (Env.mk 1700000000 1700000000 0 "/s").timeTime ∧
      mainExp ⟨1700000000, 1700000000, 0, "/s"⟩ -
        mainIat ⟨1700000000, 1700000000, 0, "/s"⟩ = 15552000 :=
  ⟨by norm_num, exp_minus_iat_same_instant ⟨1700000000, 1700000000, 0, "/s"⟩
    (by norm_num) rfl rfl⟩

/-- C2: the claim-set invariant iat < exp holds on every invocation whose
time source is sane: the first reading is a nonnegative epoch value, the
second read does not happen before the first, and the UTC-offset change
over the 180-day window is bounded by a day. -/
theorem iat_lt_exp (e : Env) (h0 : 0 ≤ e.timeTime) (h1 : e.timeTime ≤ e.nowTs)
    (h2 : -86400 ≤ e.tzShift) : mainIat e < mainExp e := by
  have hz : ((-86400 : ℤ) : ℚ) ≤ (e.tzShift : ℚ) := by exact_mod_cast h2
  have hd0 : (0 : ℚ) ≤ dtPlus180Ts e := by
    unfold dtPlus180Ts
    push_cast at hz ⊢
    linarith
  unfold mainIat mainExp pyTrunc
  rw [if_pos h0, if_pos hd0]
  have hfl : ((⌊e.timeTime⌋ : ℤ) : ℚ) ≤ e.timeTime := Int.floor_le _
  apply Int.lt_iff_add_one_le.mpr
  apply Int.le_floor.mpr
  unfold dtPlus180Ts
  push_cast at hz ⊢
  linarith

/-- Witness for C2 at a concrete sane environment. -/
theorem iat_lt_exp_witness :
    ((0 : ℚ) ≤ (1700000000 : ℚ) ∧ (1700000000 : ℚ) ≤ (1700000002 : ℚ) ∧
        (-86400 : ℤ) ≤ (3600 : ℤ)) ∧
      mainIat ⟨1700000000, 1700000002, 3600, "/k"⟩ <
        mainExp ⟨1700000000, 1700000002, 3600, "/k"⟩ :=
  ⟨⟨by norm_num, by norm_num, by norm_num⟩,
    iat_lt_exp ⟨1700000000, 1700000002, 3600, "/k"⟩ (by norm_num) (by norm_num)
      (by norm_num)⟩

/-- C5 counterexample: output is not a function of the time source alone.
Two runs observing identical clock values but installed at different
script paths print different text, because line 68 prints the module file
location. -/
theorem output_not_pure_in_time_alone :
    mainOutput ⟨0, 0, 0, "/a"⟩ ≠ mainOutput ⟨0, 0, 0, "/b"⟩ :=
  mainOutput_path_ne ⟨0, 0, 0, "/a"⟩ ⟨0, 0, 0, "/b"⟩ rfl rfl rfl (by decide)

/-- C5 amended: the output is deterministic given the time-source values
together with the script location: two runs observing the same clock
readings, the same offset shift and the same script path produce
character-for-character identical output. -/
theorem output_deterministic (e e' : Env) (ht : e.timeTime = e'.timeTime)
    (hn : e.nowTs = e'.nowTs) (hz : e.tzShift = e'.tzShift)
    (hp : e.scriptPath = e'.scriptPath) : mainOutput e = mainOutput e' := by
  cases e
  cases e'
  simp only at ht hn hz hp
  rw [ht, hn, hz, hp]

/-- Witness for the amended C5 at two concrete environments observing the
same inputs. -/
theorem output_deterministic_witness :
    mainOutput ⟨1, 2, 3, "/s"⟩ = mainOutput ⟨1, 2, 3, "/s"⟩ :=
  output_deterministic ⟨1, 2, 3, "/s"⟩ ⟨1, 2, 3, "/s"⟩ rfl rfl rfl rfl

/-- C10: the OPTION 2 block includes the script location: the output
decomposes around the printed module path, and two runs at identical clock
readings but different installation paths produce different output. -/
theorem output_depends_on_script_path :
    (∀ e : Env, mainOutput e =
        outBeforePayload ++ (renderPayload e ++ "\n") ++ outAfterPayload ++
          ("  python3 " ++ e.scriptPath ++ "\n") ++ "\n") ∧
      (∀ e e' : Env, e.timeTime = e'.timeTime → e.nowTs = e'.nowTs →
        e.tzShift = e'.tzShift → e.scriptPath ≠ e'.scriptPath →
        mainOutput e ≠ mainOutput e') :=
  ⟨mainOutput_decomp, mainOutput_path_ne⟩

/-- Witness for C10 at two concrete environments sharing clock readings
but installed at different paths. -/
theorem output_depends_on_script_path_witness :
    mainOutput ⟨5, 5, 0, "/x"⟩ ≠ mainOutput ⟨5, 5, 0, "/y"⟩ :=
  output_depends_on_script_path.2 ⟨5, 5, 0, "/x"⟩ ⟨5, 5, 0, "/y"⟩ rfl rfl rfl
    (by decide)
